import Mathlib

/-!
Verification of the Hostinger email sender backend (`email_server.py`).

The Python source is shallowly embedded: the retry loop of
`EmailSender.send_email` becomes a structurally recursive function over the
remaining attempt budget, the SMTP network interaction is abstracted as a
`behavior : Nat → AttemptResult` giving the classified result of each
transport attempt, time delays are collected as a list of sleep durations,
and the Flask bulk handler `send_bulk_emails` becomes a total function from
the parsed request data (optional fields, as `data.get` can return `None`)
and a completion order (the nondeterministic `as_completed` order) to the
JSON response.
-/

namespace EmailServer

/-- Classified result of one SMTP transport attempt, mirroring the
`except` clauses of `EmailSender.send_email`: success, the two terminal
exception classes (`SMTPAuthenticationError`, `SMTPRecipientsRefused`),
the retryable `SMTPException`, and the retryable catch-all `Exception`.
Each failure carries the server-provided detail string `str(e)`. -/
inductive AttemptResult where
  | ok : AttemptResult
  | authError (detail : String) : AttemptResult
  | recipientsRefused (detail : String) : AttemptResult
  | smtpError (detail : String) : AttemptResult
  | otherError (detail : String) : AttemptResult
deriving Repr, DecidableEq

/-- The per-recipient result dict `{'success': ..., 'recipient': ..., 'error': ...}`. -/
structure SendOutcome where
  success : Bool
  recipient : String
  error : Option String
deriving Repr, DecidableEq

/-- `max_retries = 3` in `send_email`. -/
def max_retries : Nat := 3

/-- `retry_delay = 1` in `send_email`. -/
def retry_delay : Nat := 1

/-- One execution of `send_email`: the outcome, the number of transport
attempts made, and the sleep durations performed between attempts. -/
structure SendTrace where
  outcome : SendOutcome
  attempts : Nat
  sleeps : List Nat
deriving Repr, DecidableEq

/-- The `for attempt in range(max_retries)` loop of `EmailSender.send_email`,
as recursion on the remaining iterations (`remaining = max_retries - attempt`
at every call). Each branch mirrors one `except` clause of the source:
terminal classifications return at once; retryable ones sleep `retry_delay`
and continue when `attempt < max_retries - 1`, and otherwise return the last
underlying error. Exiting the loop yields the `'Max retries exceeded'` dict. -/
def sendLoop (behavior : Nat → AttemptResult) (to_email : String) :
    Nat → Nat → SendTrace
  | _, 0 => ⟨⟨false, to_email, some "Max retries exceeded"⟩, 0, []⟩
  | attempt, r + 1 =>
    match behavior attempt with
    | .ok => ⟨⟨true, to_email, none⟩, 1, []⟩
    | .authError _ =>
        ⟨⟨false, to_email, some "Authentication failed. Check email/password"⟩, 1, []⟩
    | .recipientsRefused _ =>
        ⟨⟨false, to_email, some "Recipient address rejected"⟩, 1, []⟩
    | .smtpError d =>
        if attempt < max_retries - 1 then
          let t := sendLoop behavior to_email (attempt + 1) r
          ⟨t.outcome, t.attempts + 1, retry_delay :: t.sleeps⟩
        else ⟨⟨false, to_email, some ("SMTP error: " ++ d)⟩, 1, []⟩
    | .otherError d =>
        if attempt < max_retries - 1 then
          let t := sendLoop behavior to_email (attempt + 1) r
          ⟨t.outcome, t.attempts + 1, retry_delay :: t.sleeps⟩
        else ⟨⟨false, to_email, some d⟩, 1, []⟩

/-- `EmailSender.send_email(to_email, subject, body)`, with the network
abstracted by `behavior` (message construction is modelled separately by
`build_message`; the outcome does not depend on subject or body). -/
def send_email (behavior : Nat → AttemptResult) (to_email : String) : SendTrace :=
  sendLoop behavior to_email 0 max_retries

/-- Retryable classifications: `SMTPException` and the generic `Exception`
handler, both of which sleep and continue when attempts remain. -/
def retryableFailure : AttemptResult → Bool
  | .smtpError _ => true
  | .otherError _ => true
  | _ => false

/-- The error message the source produces on the final attempt for each
retryable classification: `f'SMTP error: {str(e)}'` for `SMTPException`,
`str(e)` for the generic handler. -/
def lastErrorMessage : AttemptResult → Option String
  | .smtpError d => some ("SMTP error: " ++ d)
  | .otherError d => some d
  | _ => none

/-- The `EmailSender` class constructor state: `__init__` stores the four
arguments (the port already coerced to an integer). -/
structure EmailSender where
  smtp_server : String
  smtp_port : Nat
  email : String
  password : String
deriving Repr, DecidableEq

/-- `self.use_ssl = self.smtp_port in [465, 587]`. -/
def EmailSender.use_ssl (s : EmailSender) : Bool :=
  s.smtp_port = 465 || s.smtp_port = 587

/-- `ssl` module verification modes used by the source: the default context
carries `CERT_REQUIRED`; the source overwrites it with `CERT_NONE`. -/
inductive VerifyMode where
  | CERT_NONE : VerifyMode
  | CERT_REQUIRED : VerifyMode
deriving Repr, DecidableEq

/-- The settings of the `ssl.SSLContext` the source passes to the encrypted
transports: `context.check_hostname` and `context.verify_mode`. -/
structure TlsContext where
  check_hostname : Bool
  verify_mode : VerifyMode
deriving Repr, DecidableEq

/-- The observable transport steps of one connect-and-send cycle. -/
inductive TransportAction where
  | connectTls : TransportAction
  | connectPlain : TransportAction
  | starttls : TransportAction
  | login : TransportAction
  | sendMessage : TransportAction
deriving Repr, DecidableEq

/-- The connect/upgrade/authenticate/transmit sequence chosen by
`send_email` lines 77–96: `SMTP_SSL` for port 465; plain `SMTP` plus
`starttls()` before `login()` for port 587; plain `SMTP` throughout for
any other port. -/
def transport_actions (s : EmailSender) : List TransportAction :=
  if s.smtp_port = 465 then
    [.connectTls, .login, .sendMessage]
  else
    if s.smtp_port = 587 then
      [.connectPlain, .starttls, .login, .sendMessage]
    else
      [.connectPlain, .login, .sendMessage]

/-- The TLS context built for the encrypted paths (`check_hostname = False`,
`verify_mode = ssl.CERT_NONE` on both), `none` when no TLS is used. -/
def tls_context (s : EmailSender) : Option TlsContext :=
  if s.smtp_port = 465 then some ⟨false, .CERT_NONE⟩
  else
    if s.smtp_port = 587 then some ⟨false, .CERT_NONE⟩
    else none

/-! ## Message construction (`send_email` lines 40–74) -/

/-- `body.replace('\n', '<br>\n')`, character by character (the pattern is
the single character `'\n'`). -/
def replaceNewlines : List Char → List Char
  | [] => []
  | c :: cs =>
    if c = '\n' then '<' :: 'b' :: 'r' :: '>' :: '\n' :: replaceNewlines cs
    else c :: replaceNewlines cs

/-- `html_body = body.replace('\n', '<br>\n')`. -/
def html_body (body : String) : String :=
  String.mk (replaceNewlines body.toList)

/-- The f-string template text before the `{html_body}` interpolation point. -/
def html_head : String :=
  "\n<!DOCTYPE html>\n<html>\n<head>\n    <meta charset=\"UTF-8\">\n    <style>\n        body \x7b\n            font-family: Arial, sans-serif;\n            line-height: 1.6;\n            color: #333;\n            max-width: 600px;\n            margin: 0 auto;\n            padding: 20px;\n        \x7d\n    </style>\n</head>\n<body>\n    "

/-- The f-string template text after the `{html_body}` interpolation point. -/
def html_tail : String :=
  "\n</body>\n</html>\n"

/-- `html_content`: the template with `html_body` interpolated. -/
def html_content (body : String) : String :=
  html_head ++ html_body body ++ html_tail

/-- The `MIMEMultipart('alternative')` message assembled by `send_email`:
headers, the attached `MIMEText(body, 'plain')` part and the attached
`MIMEText(html_content, 'html')` part. -/
structure MimeMessage where
  from_addr : String
  to_addr : String
  subject : String
  text_part : String
  html_part : String
deriving Repr, DecidableEq

/-- Message construction from `send_email` lines 40–74 (a pure computation:
every step is string formatting). -/
def build_message (from_email to_email subject body : String) : MimeMessage :=
  ⟨from_email, to_email, subject, body, html_content body⟩

/-- The five characters `replaceNewlines` substitutes for each newline:
an explicit `<br>` break followed by the newline. -/
def brNewline : List Char := ['<', 'b', 'r', '>', '\n']

/-- Joining a list of lines with a separator, used to state properties of
bodies decomposed into newline-free lines. -/
def joinWith (sep : List Char) : List (List Char) → List Char
  | [] => []
  | [l] => l
  | l :: ls => l ++ sep ++ joinWith sep ls

/-! ## Bulk handler (`send_bulk_emails`, lines 158–213)

The parsed JSON body is modelled with optional fields (`data.get` returns
`None` when absent). Python truthiness of `all([...])` over the extracted
values maps to non-emptiness of the present value. The nondeterministic
`as_completed` iteration is modelled by an explicit completion `order`:
a list of indices into the submitted futures; theorems quantify over any
order that is a permutation of the submitted indices. -/

/-- The fields `send_bulk_emails` extracts from `request.json`. -/
structure BulkRequestData where
  from_email : Option String
  password : Option String
  recipients : Option (List String)
  subject : Option String
  body : Option String
  smtp_server : Option String
  smtp_port : Option Nat
  max_workers : Option Nat
deriving Repr, DecidableEq

/-- Python truthiness of an extracted optional string: `None` and `''` are
falsy. -/
def truthyStr : Option String → Bool
  | none => false
  | some s => !s.isEmpty

/-- Python truthiness of the extracted recipients value
(`data.get('recipients', [])`): missing and `[]` are falsy. -/
def truthyList : Option (List String) → Bool
  | none => false
  | some l => !l.isEmpty

/-- The JSON response of `send_bulk_emails` together with its HTTP status:
the 400 and 500 bodies are `{'success': False, 'error': ...}`; the 200 body
is the batch report of line 203–209. -/
inductive BulkResponse where
  | badRequest (error : String) : BulkResponse
  | report (success : Bool) (total successful failed : Nat)
      (results : List SendOutcome) : BulkResponse
deriving Repr, DecidableEq

/-- HTTP status code of the response. -/
def BulkResponse.status : BulkResponse → Nat
  | .badRequest _ => 400
  | .report _ _ _ _ _ => 200

/-- The top-level `success` field of the response JSON (`False` in the 400
body, the literal written at line 204 in the report). -/
def BulkResponse.successFlag : BulkResponse → Bool
  | .badRequest _ => false
  | .report s _ _ _ _ => s

/-- The `results` array of the response (absent, i.e. empty, in the 400 body). -/
def BulkResponse.resultsList : BulkResponse → List SendOutcome
  | .badRequest _ => []
  | .report _ _ _ _ rs => rs

/-- The `total` field of the response (0 in the 400 body, which has none). -/
def BulkResponse.totalCount : BulkResponse → Nat
  | .badRequest _ => 0
  | .report _ t _ _ _ => t

/-- The `successful` field of the response. -/
def BulkResponse.successfulCount : BulkResponse → Nat
  | .badRequest _ => 0
  | .report _ _ s _ _ => s

/-- The `failed` field of the response. -/
def BulkResponse.failedCount : BulkResponse → Nat
  | .badRequest _ => 0
  | .report _ _ _ f _ => f

/-- The traces of the submitted futures, one per recipient in input order:
`executor.submit(sender.send_email, recipient, subject, body)` for each
element of `recipients` (duplicates submit separate futures, so behaviors
are indexed by position). -/
def submittedTraces (behaviors : Nat → Nat → AttemptResult)
    (recipients : List String) : List SendTrace :=
  (List.range recipients.length).map fun i =>
    send_email (behaviors i) (recipients.getD i "")

/-- The check `all([from_email, password, recipients, subject, body])` of
line 175 under Python truthiness. -/
def all_required_fields (data : BulkRequestData) : Bool :=
  truthyStr data.from_email && truthyStr data.password &&
    truthyList data.recipients && truthyStr data.subject &&
    truthyStr data.body

/-- The `for future in as_completed(...)` collection loop: the outcomes of
the submitted futures visited in completion `order` (each in-range index
denotes one future; `as_completed` visits every future exactly once, which
theorems express by requiring `order` to be a permutation of the indices). -/
def collectedResults (traces : List SendTrace) (order : List Nat) :
    List SendOutcome :=
  order.filterMap fun i => (traces.get? i).map (·.outcome)

/-- `send_bulk_emails(data)` after JSON parsing: validation, concurrent
dispatch and aggregation. Returns the response and the total number of
transport attempts performed (0 when validation rejects the request, since
no future is ever submitted). `order` is the `as_completed` completion
order over future indices. -/
def send_bulk_emails (data : BulkRequestData)
    (behaviors : Nat → Nat → AttemptResult) (order : List Nat) :
    BulkResponse × Nat :=
  let recipients := data.recipients.getD []
  if !all_required_fields data then
    (.badRequest "Missing required fields", 0)
  else
    if recipients.length = 0 then
      (.badRequest "Recipients must be a non-empty list", 0)
    else
      let traces := submittedTraces behaviors recipients
      let results := collectedResults traces order
      let total := results.length
      let successful := results.countP (·.success)
      let failed := total - successful
      (.report true total successful failed results,
       (traces.map (·.attempts)).sum)

/-! ## Helper lemmas -/

theorem sendLoop_retry_step (behavior : Nat → AttemptResult) (to_email : String)
    (attempt r : Nat) (ha : attempt < max_retries - 1)
    (hb : retryableFailure (behavior attempt) = true) :
    sendLoop behavior to_email attempt (r + 1) =
      ⟨(sendLoop behavior to_email (attempt + 1) r).outcome,
       (sendLoop behavior to_email (attempt + 1) r).attempts + 1,
       retry_delay :: (sendLoop behavior to_email (attempt + 1) r).sleeps⟩ := by
  cases hb' : behavior attempt <;> simp [retryableFailure, hb'] at hb <;>
    simp [sendLoop, hb', ha]

theorem sendLoop_last_retryable (behavior : Nat → AttemptResult) (to_email : String)
    (attempt r : Nat) (ha : ¬attempt < max_retries - 1)
    (hb : retryableFailure (behavior attempt) = true) :
    sendLoop behavior to_email attempt (r + 1) =
      ⟨⟨false, to_email, lastErrorMessage (behavior attempt)⟩, 1, []⟩ := by
  cases hb' : behavior attempt <;> simp [retryableFailure, hb'] at hb <;>
    simp [sendLoop, hb', ha, lastErrorMessage]

/-- When every attempt fails retryably, `send_email` makes all three
attempts, sleeps the fixed delay twice, and returns the final attempt's
underlying error message. -/
theorem send_email_all_retryable (behavior : Nat → AttemptResult) (to_email : String)
    (h0 : retryableFailure (behavior 0) = true)
    (h1 : retryableFailure (behavior 1) = true)
    (h2 : retryableFailure (behavior 2) = true) :
    send_email behavior to_email =
      ⟨⟨false, to_email, lastErrorMessage (behavior 2)⟩, 3, [retry_delay, retry_delay]⟩ := by
  unfold send_email
  rw [show max_retries = 2 + 1 from rfl,
      sendLoop_retry_step behavior to_email 0 2 (by decide) h0,
      sendLoop_retry_step behavior to_email 1 1 (by decide) h1,
      sendLoop_last_retryable behavior to_email 2 0 (by decide) h2]

theorem length_filterMap_of_isSome {α β : Type} (f : α → Option β) (l : List α)
    (h : ∀ a ∈ l, (f a).isSome) : (l.filterMap f).length = l.length := by
  induction l with
  | nil => simp
  | cons a l ih =>
    rcases Option.isSome_iff_exists.mp (h a (by simp)) with ⟨b, hb⟩
    simp [List.filterMap_cons, hb, ih fun x hx => h x (by simp [hx])]

theorem length_submittedTraces (behaviors : Nat → Nat → AttemptResult)
    (recipients : List String) :
    (submittedTraces behaviors recipients).length = recipients.length := by
  simp [submittedTraces]

theorem get?_submittedTraces (behaviors : Nat → Nat → AttemptResult)
    (recipients : List String) (i : Nat) (hi : i < recipients.length) :
    (submittedTraces behaviors recipients).get? i =
      some (send_email (behaviors i) (recipients.getD i "")) := by
  simp [submittedTraces, List.get?_map, List.get?_range, hi]

theorem length_collectedResults (traces : List SendTrace) (order : List Nat)
    (horder : order.Perm (List.range traces.length)) :
    (collectedResults traces order).length = traces.length := by
  unfold collectedResults
  rw [(horder.filterMap _).length_eq, length_filterMap_of_isSome]
  · simp
  · intro i hi
    rw [List.get?_eq_get (List.mem_range.mp hi)]
    simp

theorem mem_collectedResults (traces : List SendTrace) (order : List Nat)
    (horder : order.Perm (List.range traces.length))
    (i : Nat) (hi : i < traces.length) (t : SendTrace)
    (ht : traces.get? i = some t) :
    t.outcome ∈ collectedResults traces order := by
  apply List.mem_filterMap.mpr
  exact ⟨i, horder.mem_iff.mpr (List.mem_range.mpr hi), by rw [ht]; simp⟩

theorem getD_recipients_ne_nil {r : Option (List String)}
    (h : truthyList r = true) : (r.getD []).length ≠ 0 := by
  cases r with
  | none => simp [truthyList] at h
  | some l =>
    simp [truthyList] at h
    simp [h]

theorem replaceNewlines_append (l r : List Char) :
    replaceNewlines (l ++ r) = replaceNewlines l ++ replaceNewlines r := by
  induction l with
  | nil => rfl
  | cons c cs ih =>
    by_cases hc : c = '\n' <;> simp [replaceNewlines, hc, ih]

theorem replaceNewlines_of_no_newline (l : List Char) (h : '\n' ∉ l) :
    replaceNewlines l = l := by
  induction l with
  | nil => rfl
  | cons c cs ih =>
    simp only [List.mem_cons, not_or] at h
    have hc : ¬c = '\n' := fun he => h.1 he.symm
    simp [replaceNewlines, hc, ih h.2]

theorem replaceNewlines_joinWith (lines : List (List Char))
    (h : ∀ l ∈ lines, '\n' ∉ l) :
    replaceNewlines (joinWith ['\n'] lines) = joinWith brNewline lines := by
  induction lines with
  | nil => rfl
  | cons l ls ih =>
    cases ls with
    | nil => exact replaceNewlines_of_no_newline l (h l (by simp))
    | cons l2 ls2 =>
      have hl : '\n' ∉ l := h l (by simp)
      have hrest : ∀ x ∈ l2 :: ls2, '\n' ∉ x := fun x hx => h x (by simp [hx])
      show replaceNewlines (l ++ ['\n'] ++ joinWith ['\n'] (l2 :: ls2)) =
        l ++ brNewline ++ joinWith brNewline (l2 :: ls2)
      rw [replaceNewlines_append, replaceNewlines_append,
          replaceNewlines_of_no_newline l hl, ih hrest]
      rfl

theorem send_bulk_emails_valid (data : BulkRequestData)
    (behaviors : Nat → Nat → AttemptResult) (order : List Nat)
    (hvalid : all_required_fields data = true) :
    send_bulk_emails data behaviors order =
      (let results :=
        collectedResults (submittedTraces behaviors (data.recipients.getD [])) order
       (.report true results.length (results.countP (·.success))
          (results.length - results.countP (·.success)) results,
        ((submittedTraces behaviors (data.recipients.getD [])).map (·.attempts)).sum)) := by
  have hr : (data.recipients.getD []).length ≠ 0 := by
    have h := hvalid
    simp only [all_required_fields, Bool.and_eq_true] at h
    exact getD_recipients_ne_nil h.1.1.2
  unfold send_bulk_emails
  simp [hvalid, hr]

/-! ## Claim theorems -/

/-- C1: for every bulk send request that passes validation (all required
fields present, recipients non-empty), the report contains exactly one
`SendOutcome` per input recipient — duplicates included, none omitted, so
`len(results) == len(recipients)` — and `total` equals the number of
outcomes and satisfies `total == successful + failed`. -/
theorem bulk_report_cardinality (data : BulkRequestData)
    (behaviors : Nat → Nat → AttemptResult) (order : List Nat)
    (hvalid : all_required_fields data = true)
    (horder : order.Perm (List.range (data.recipients.getD []).length)) :
    ((send_bulk_emails data behaviors order).1).resultsList.length
        = (data.recipients.getD []).length ∧
    ((send_bulk_emails data behaviors order).1).totalCount
        = ((send_bulk_emails data behaviors order).1).resultsList.length ∧
    ((send_bulk_emails data behaviors order).1).totalCount
        = ((send_bulk_emails data behaviors order).1).successfulCount
          + ((send_bulk_emails data behaviors order).1).failedCount := by
  have htl := length_submittedTraces behaviors (data.recipients.getD [])
  have hlen := length_collectedResults
    (submittedTraces behaviors (data.recipients.getD [])) order
    (by rw [htl]; exact horder)
  rw [htl] at hlen
  have hcount :
      (collectedResults (submittedTraces behaviors (data.recipients.getD []))
        order).countP (·.success) ≤
      (collectedResults (submittedTraces behaviors (data.recipients.getD []))
        order).length :=
    List.countP_le_length _
  rw [send_bulk_emails_valid data behaviors order hvalid]
  simp only [BulkResponse.resultsList, BulkResponse.totalCount,
    BulkResponse.successfulCount, BulkResponse.failedCount]
  exact ⟨hlen, trivial, by omega⟩

/-- C1 witness: a concrete valid request with a duplicated recipient and an
out-of-submission-order completion, on which the theorem's hypotheses hold
and its conclusion evaluates. -/
theorem bulk_report_cardinality_witness :
    all_required_fields
        ⟨some "a@b.c", some "pw", some ["r@x.y", "r@x.y", "s@x.y"],
         some "subj", some "body", none, none, none⟩ = true ∧
    ([2, 0, 1].Perm (List.range
        ((some ["r@x.y", "r@x.y", "s@x.y"] : Option (List String)).getD
          []).length)) ∧
    (((send_bulk_emails
        ⟨some "a@b.c", some "pw", some ["r@x.y", "r@x.y", "s@x.y"],
         some "subj", some "body", none, none, none⟩
        (fun i _ => if i = 0 then .ok else .authError "x")
        [2, 0, 1]).1).resultsList.length = 3 ∧
     ((send_bulk_emails
        ⟨some "a@b.c", some "pw", some ["r@x.y", "r@x.y", "s@x.y"],
         some "subj", some "body", none, none, none⟩
        (fun i _ => if i = 0 then .ok else .authError "x")
        [2, 0, 1]).1).totalCount =
      ((send_bulk_emails
        ⟨some "a@b.c", some "pw", some ["r@x.y", "r@x.y", "s@x.y"],
         some "subj", some "body", none, none, none⟩
        (fun i _ => if i = 0 then .ok else .authError "x")
        [2, 0, 1]).1).resultsList.length ∧
     ((send_bulk_emails
        ⟨some "a@b.c", some "pw", some ["r@x.y", "r@x.y", "s@x.y"],
         some "subj", some "body", none, none, none⟩
        (fun i _ => if i = 0 then .ok else .authError "x")
        [2, 0, 1]).1).totalCount =
      ((send_bulk_emails
        ⟨some "a@b.c", some "pw", some ["r@x.y", "r@x.y", "s@x.y"],
         some "subj", some "body", none, none, none⟩
        (fun i _ => if i = 0 then .ok else .authError "x")
        [2, 0, 1]).1).successfulCount +
      ((send_bulk_emails
        ⟨some "a@b.c", some "pw", some ["r@x.y", "r@x.y", "s@x.y"],
         some "subj", some "body", none, none, none⟩
        (fun i _ => if i = 0 then .ok else .authError "x")
        [2, 0, 1]).1).failedCount) :=
  ⟨by decide, by decide,
   bulk_report_cardinality
     ⟨some "a@b.c", some "pw", some ["r@x.y", "r@x.y", "s@x.y"],
      some "subj", some "body", none, none, none⟩
     (fun i _ => if i = 0 then .ok else .authError "x")
     [2, 0, 1] (by decide) (by decide)⟩

/-- C2 counterexample: a recipient whose transport fails with a retryable
SMTP error on all three attempts gets a failed outcome carrying the last
underlying error (`'SMTP error: connection reset'`), not the distinct
`'Max retries exceeded'` classification — the post-loop return producing
that classification is unreachable, because the final attempt's handler
returns the underlying error directly. -/
theorem retries_exhausted_counterexample :
    (send_email (fun _ => AttemptResult.smtpError "connection reset")
        "user@example.com").attempts = 3 ∧
    (send_email (fun _ => AttemptResult.smtpError "connection reset")
        "user@example.com").outcome.success = false ∧
    (send_email (fun _ => AttemptResult.smtpError "connection reset")
        "user@example.com").outcome.error ≠ some "Max retries exceeded" ∧
    (send_email (fun _ => AttemptResult.smtpError "connection reset")
        "user@example.com").outcome.error
      = some "SMTP error: connection reset" := by
  decide

/-- C2 (amended): for every recipient whose transport call fails with a
retryable (transient/unclassified) error on all attempts, the send
operation makes exactly 3 attempts and returns a single failed
`SendOutcome` carrying the last underlying error message (`'SMTP error:
<detail>'` for an SMTP protocol error, the raw message for an unclassified
one); the `'Max retries exceeded'` classification is never produced on
this path. -/
theorem retries_return_last_error (behavior : Nat → AttemptResult)
    (to_email : String)
    (h0 : retryableFailure (behavior 0) = true)
    (h1 : retryableFailure (behavior 1) = true)
    (h2 : retryableFailure (behavior 2) = true) :
    send_email behavior to_email =
      ⟨⟨false, to_email, lastErrorMessage (behavior 2)⟩, 3,
       [retry_delay, retry_delay]⟩ :=
  send_email_all_retryable behavior to_email h0 h1 h2

/-- C2 witness: the amended theorem applied to an always-failing transport. -/
theorem retries_return_last_error_witness :
    retryableFailure (AttemptResult.smtpError "timed out") = true ∧
    send_email (fun _ => AttemptResult.smtpError "timed out") "w@x.y" =
      ⟨⟨false, "w@x.y", lastErrorMessage (AttemptResult.smtpError "timed out")⟩,
       3, [retry_delay, retry_delay]⟩ :=
  ⟨by decide,
   retries_return_last_error (fun _ => AttemptResult.smtpError "timed out")
     "w@x.y" (by decide) (by decide) (by decide)⟩

/-- C4: for every recipient whose transport call raises an authentication
failure, the send makes exactly one attempt (never retried, no sleeps) and
returns a failed `SendOutcome` whose error message is the fixed sanitized
string, independent of the server-provided detail. -/
theorem auth_failure_single_attempt (behavior : Nat → AttemptResult)
    (to_email detail : String)
    (h : behavior 0 = AttemptResult.authError detail) :
    send_email behavior to_email =
      ⟨⟨false, to_email, some "Authentication failed. Check email/password"⟩,
       1, []⟩ := by
  unfold send_email
  rw [show max_retries = 2 + 1 from rfl]
  simp [sendLoop, h]

/-- C4 witness: the theorem applied to a transport whose failure detail
contains provider internals, which do not reach the outcome. -/
theorem auth_failure_single_attempt_witness :
    (fun _ : Nat => AttemptResult.authError "535 bad password hunter2") 0
        = AttemptResult.authError "535 bad password hunter2" ∧
    send_email (fun _ => AttemptResult.authError "535 bad password hunter2")
        "w@x.y" =
      ⟨⟨false, "w@x.y", some "Authentication failed. Check email/password"⟩,
       1, []⟩ :=
  ⟨rfl,
   auth_failure_single_attempt
     (fun _ => AttemptResult.authError "535 bad password hunter2")
     "w@x.y" "535 bad password hunter2" rfl⟩

/-- C5: for every recipient whose transport call fails retryably on the
first two attempts and succeeds on the third, the send makes exactly 3
attempts, pauses the fixed `retry_delay = 1` between attempts (no
exponential backoff: the recorded sleeps are `[1, 1]`), and returns a
single successful `SendOutcome`. -/
theorem transient_then_success (behavior : Nat → AttemptResult)
    (to_email : String)
    (h0 : retryableFailure (behavior 0) = true)
    (h1 : retryableFailure (behavior 1) = true)
    (h2 : behavior 2 = AttemptResult.ok) :
    send_email behavior to_email =
      ⟨⟨true, to_email, none⟩, 3, [retry_delay, retry_delay]⟩ := by
  unfold send_email
  rw [show max_retries = 2 + 1 from rfl,
      sendLoop_retry_step behavior to_email 0 2 (by decide) h0,
      sendLoop_retry_step behavior to_email 1 1 (by decide) h1]
  simp [sendLoop, h2]

/-- C5 witness: the theorem applied to a transport failing twice then
succeeding. -/
theorem transient_then_success_witness :
    retryableFailure
        ((fun a => if a < 2 then AttemptResult.smtpError "x"
                   else AttemptResult.ok) 0) = true ∧
    (fun a => if a < 2 then AttemptResult.smtpError "x"
              else AttemptResult.ok) 2 = AttemptResult.ok ∧
    send_email
        (fun a => if a < 2 then AttemptResult.smtpError "x"
                  else AttemptResult.ok) "w@x.y" =
      ⟨⟨true, "w@x.y", none⟩, 3, [retry_delay, retry_delay]⟩ :=
  ⟨by decide, by decide,
   transient_then_success
     (fun a => if a < 2 then AttemptResult.smtpError "x" else AttemptResult.ok)
     "w@x.y" (by decide) (by decide) (by decide)⟩

/-- C3: a crash or unexpected fault (the generic `Exception` handler's
class, `otherError`) while processing one recipient never aborts the
batch: the response is still the HTTP 200 report, every recipient still
yields an outcome (`len(results) == len(recipients)`), and the faulting
recipient's outcome appears in the report as a failure rather than as a
whole-request error. -/
theorem bulk_fault_containment (data : BulkRequestData)
    (behaviors : Nat → Nat → AttemptResult) (order : List Nat)
    (hvalid : all_required_fields data = true)
    (horder : order.Perm (List.range (data.recipients.getD []).length))
    (i : Nat) (hi : i < (data.recipients.getD []).length)
    (hfault : ∀ a, ∃ d, behaviors i a = AttemptResult.otherError d) :
    ((send_bulk_emails data behaviors order).1).status = 200 ∧
    ((send_bulk_emails data behaviors order).1).resultsList.length
        = (data.recipients.getD []).length ∧
    (∃ o ∈ ((send_bulk_emails data behaviors order).1).resultsList,
        o.recipient = (data.recipients.getD []).getD i "" ∧
        o.success = false) := by
  have htl := length_submittedTraces behaviors (data.recipients.getD [])
  have hlen := length_collectedResults
    (submittedTraces behaviors (data.recipients.getD [])) order
    (by rw [htl]; exact horder)
  rw [htl] at hlen
  have hget := get?_submittedTraces behaviors (data.recipients.getD []) i hi
  have hmem := mem_collectedResults
    (submittedTraces behaviors (data.recipients.getD [])) order
    (by rw [htl]; exact horder) i (by rw [htl]; exact hi) _ hget
  have hretry : ∀ a, retryableFailure (behaviors i a) = true := by
    intro a
    obtain ⟨d, hd⟩ := hfault a
    rw [hd]
    rfl
  have hout := send_email_all_retryable (behaviors i)
    ((data.recipients.getD []).getD i "") (hretry 0) (hretry 1) (hretry 2)
  rw [send_bulk_emails_valid data behaviors order hvalid]
  simp only [BulkResponse.status, BulkResponse.resultsList]
  refine ⟨trivial, hlen, ?_⟩
  refine ⟨(send_email (behaviors i)
    ((data.recipients.getD []).getD i "")).outcome, hmem, ?_, ?_⟩ <;>
    rw [hout]

/-- C3 witness: a three-recipient batch whose middle recipient's transport
always crashes with an unclassified fault; the batch still reports all
three outcomes, the faulting one as a failure. -/
theorem bulk_fault_containment_witness :
    all_required_fields
        ⟨some "a@b.c", some "pw", some ["p@x.y", "q@x.y", "r@x.y"],
         some "subj", some "body", none, none, none⟩ = true ∧
    (∀ a : Nat, ∃ d, (fun (j : Nat) (_ : Nat) => if j = 1
        then AttemptResult.otherError "worker crashed"
        else AttemptResult.ok) 1 a = AttemptResult.otherError d) ∧
    (((send_bulk_emails
        ⟨some "a@b.c", some "pw", some ["p@x.y", "q@x.y", "r@x.y"],
         some "subj", some "body", none, none, none⟩
        (fun j _ => if j = 1 then AttemptResult.otherError "worker crashed"
                    else AttemptResult.ok)
        [2, 1, 0]).1).status = 200 ∧
     ((send_bulk_emails
        ⟨some "a@b.c", some "pw", some ["p@x.y", "q@x.y", "r@x.y"],
         some "subj", some "body", none, none, none⟩
        (fun j _ => if j = 1 then AttemptResult.otherError "worker crashed"
                    else AttemptResult.ok)
        [2, 1, 0]).1).resultsList.length = 3 ∧
     (∃ o ∈ ((send_bulk_emails
        ⟨some "a@b.c", some "pw", some ["p@x.y", "q@x.y", "r@x.y"],
         some "subj", some "body", none, none, none⟩
        (fun j _ => if j = 1 then AttemptResult.otherError "worker crashed"
                    else AttemptResult.ok)
        [2, 1, 0]).1).resultsList,
        o.recipient = (["p@x.y", "q@x.y", "r@x.y"].getD 1 "") ∧
        o.success = false)) :=
  ⟨by decide, fun a => ⟨"worker crashed", rfl⟩,
   bulk_fault_containment
     ⟨some "a@b.c", some "pw", some ["p@x.y", "q@x.y", "r@x.y"],
      some "subj", some "body", none, none, none⟩
     (fun j _ => if j = 1 then AttemptResult.otherError "worker crashed"
                 else AttemptResult.ok)
     [2, 1, 0] (by decide) (by decide) 1 (by decide)
     (fun a => ⟨"worker crashed", rfl⟩)⟩

/-- C6: for every subject/body pair whose body is the join of newline-free
lines, message construction (a pure total function) yields a dual-part
message whose plain-text part equals the input body unmodified and whose
HTML part is the template with an explicit `<br>` break substituted at
every newline of the body; the empty body is legal and yields the template
with empty content. -/
theorem message_builder_linebreaks (from_email to_email subj : String)
    (lines : List (List Char)) (h : ∀ l ∈ lines, '\n' ∉ l) :
    (build_message from_email to_email subj
        (String.mk (joinWith ['\n'] lines))).text_part
      = String.mk (joinWith ['\n'] lines) ∧
    (build_message from_email to_email subj
        (String.mk (joinWith ['\n'] lines))).html_part
      = html_head ++ String.mk (joinWith brNewline lines) ++ html_tail ∧
    (build_message from_email to_email subj "").html_part
      = html_head ++ "" ++ html_tail := by
  refine ⟨rfl, ?_, rfl⟩
  show html_content (String.mk (joinWith ['\n'] lines)) = _
  unfold html_content html_body
  rw [show (String.mk (joinWith ['\n'] lines)).toList
        = joinWith ['\n'] lines from rfl,
      replaceNewlines_joinWith lines h]

/-- C6 witness: the spec's test vector `"line1\nline2"`, whose HTML part
carries an explicit break between the two lines and whose plain part is
the input itself. -/
theorem message_builder_linebreaks_witness :
    (∀ l ∈ [['l', 'i', 'n', 'e', '1'], ['l', 'i', 'n', 'e', '2']],
        '\n' ∉ l) ∧
    (build_message "a@b.c" "w@x.y" "subj"
        (String.mk (joinWith ['\n']
          [['l', 'i', 'n', 'e', '1'], ['l', 'i', 'n', 'e', '2']]))).text_part
      = String.mk (joinWith ['\n']
          [['l', 'i', 'n', 'e', '1'], ['l', 'i', 'n', 'e', '2']]) ∧
    (build_message "a@b.c" "w@x.y" "subj"
        (String.mk (joinWith ['\n']
          [['l', 'i', 'n', 'e', '1'], ['l', 'i', 'n', 'e', '2']]))).html_part
      = html_head ++ String.mk (joinWith brNewline
          [['l', 'i', 'n', 'e', '1'], ['l', 'i', 'n', 'e', '2']])
        ++ html_tail :=
  ⟨by decide,
   (message_builder_linebreaks "a@b.c" "w@x.y" "subj"
     [['l', 'i', 'n', 'e', '1'], ['l', 'i', 'n', 'e', '2']] (by decide)).1,
   (message_builder_linebreaks "a@b.c" "w@x.y" "subj"
     [['l', 'i', 'n', 'e', '1'], ['l', 'i', 'n', 'e', '2']] (by decide)).2.1⟩

/-- C7: the transport mode is selected by port number alone: port 465
connects with encryption active from the first byte (`SMTP_SSL`), port 587
connects in plaintext and issues the explicit `starttls` upgrade before
`login`, and every other port uses plaintext throughout; on both encrypted
paths the TLS context has `check_hostname = False` and
`verify_mode = CERT_NONE` (hostname and certificate-chain validation
disabled). -/
theorem transport_mode_by_port (host email pw : String) (port : Nat)
    (h465 : port ≠ 465) (h587 : port ≠ 587) :
    transport_actions ⟨host, 465, email, pw⟩
        = [.connectTls, .login, .sendMessage] ∧
    tls_context ⟨host, 465, email, pw⟩ = some ⟨false, .CERT_NONE⟩ ∧
    transport_actions ⟨host, 587, email, pw⟩
        = [.connectPlain, .starttls, .login, .sendMessage] ∧
    tls_context ⟨host, 587, email, pw⟩ = some ⟨false, .CERT_NONE⟩ ∧
    transport_actions ⟨host, port, email, pw⟩
        = [.connectPlain, .login, .sendMessage] ∧
    tls_context ⟨host, port, email, pw⟩ = none := by
  refine ⟨rfl, rfl, rfl, rfl, ?_, ?_⟩ <;>
    simp [transport_actions, tls_context, h465, h587]

/-- C7 witness: the theorem applied at port 25 (every non-465/587 port is
plaintext throughout). -/
theorem transport_mode_by_port_witness :
    (25 ≠ 465 ∧ 25 ≠ 587) ∧
    transport_actions ⟨"smtp.hostinger.com", 465, "a@b.c", "pw"⟩
        = [.connectTls, .login, .sendMessage] ∧
    tls_context ⟨"smtp.hostinger.com", 465, "a@b.c", "pw"⟩
        = some ⟨false, .CERT_NONE⟩ ∧
    transport_actions ⟨"smtp.hostinger.com", 587, "a@b.c", "pw"⟩
        = [.connectPlain, .starttls, .login, .sendMessage] ∧
    tls_context ⟨"smtp.hostinger.com", 587, "a@b.c", "pw"⟩
        = some ⟨false, .CERT_NONE⟩ ∧
    transport_actions ⟨"smtp.hostinger.com", 25, "a@b.c", "pw"⟩
        = [.connectPlain, .login, .sendMessage] ∧
    tls_context ⟨"smtp.hostinger.com", 25, "a@b.c", "pw"⟩ = none :=
  ⟨⟨by decide, by decide⟩,
   transport_mode_by_port "smtp.hostinger.com" "a@b.c" "pw" 25
     (by decide) (by decide)⟩

/-- C8: a bulk request with an empty recipient list — or any missing
required field — is rejected with HTTP 400 before any send is attempted:
zero transport attempts are made and the response carries no per-recipient
outcome. -/
theorem empty_recipients_rejected (data : BulkRequestData)
    (behaviors : Nat → Nat → AttemptResult) (order : List Nat)
    (h : data.recipients.getD [] = [] ∨ all_required_fields data = false) :
    ((send_bulk_emails data behaviors order).1).status = 400 ∧
    (send_bulk_emails data behaviors order).2 = 0 ∧
    ((send_bulk_emails data behaviors order).1).resultsList = [] := by
  have hinv : all_required_fields data = false := by
    rcases h with h | h
    · cases hr : data.recipients with
      | none => simp [all_required_fields, truthyList, hr]
      | some l =>
        rw [hr] at h
        simp only [Option.getD_some] at h
        simp [all_required_fields, truthyList, hr, h]
    · exact h
  unfold send_bulk_emails
  simp [hinv, BulkResponse.status, BulkResponse.resultsList]

/-- C8 witness: the theorem applied to a request whose recipients list is
present but empty; the response is a 400 with zero transport attempts. -/
theorem empty_recipients_rejected_witness :
    ((some ([] : List String)).getD [] = [] ∨
      all_required_fields
        ⟨some "a@b.c", some "pw", some [], some "subj", some "body",
         none, none, none⟩ = false) ∧
    ((send_bulk_emails
        ⟨some "a@b.c", some "pw", some [], some "subj", some "body",
         none, none, none⟩
        (fun _ _ => AttemptResult.ok) []).1).status = 400 ∧
    (send_bulk_emails
        ⟨some "a@b.c", some "pw", some [], some "subj", some "body",
         none, none, none⟩
        (fun _ _ => AttemptResult.ok) []).2 = 0 ∧
    ((send_bulk_emails
        ⟨some "a@b.c", some "pw", some [], some "subj", some "body",
         none, none, none⟩
        (fun _ _ => AttemptResult.ok) []).1).resultsList = [] :=
  ⟨Or.inl (by decide),
   empty_recipients_rejected
     ⟨some "a@b.c", some "pw", some [], some "subj", some "body",
      none, none, none⟩
     (fun _ _ => AttemptResult.ok) [] (Or.inl (by decide))⟩

/-- C10: for every bulk send that completes (validation passed, no
whole-request fault), the top-level `success` field of the response is the
constant `True` of line 204, regardless of the per-recipient outcomes. -/
theorem bulk_success_flag_always_true (data : BulkRequestData)
    (behaviors : Nat → Nat → AttemptResult) (order : List Nat)
    (hvalid : all_required_fields data = true) :
    ((send_bulk_emails data behaviors order).1).successFlag = true ∧
    ((send_bulk_emails data behaviors order).1).status = 200 := by
  rw [send_bulk_emails_valid data behaviors order hvalid]
  exact ⟨rfl, rfl⟩

/-- C10 witness: a batch in which every recipient fails authentication
still reports `success = true` (and every per-recipient outcome is a
failure). -/
theorem bulk_success_flag_always_true_witness :
    all_required_fields
        ⟨some "a@b.c", some "pw", some ["p@x.y", "q@x.y"],
         some "subj", some "body", none, none, none⟩ = true ∧
    (((send_bulk_emails
        ⟨some "a@b.c", some "pw", some ["p@x.y", "q@x.y"],
         some "subj", some "body", none, none, none⟩
        (fun _ _ => AttemptResult.authError "bad") [0, 1]).1).successFlag
      = true ∧
     ((send_bulk_emails
        ⟨some "a@b.c", some "pw", some ["p@x.y", "q@x.y"],
         some "subj", some "body", none, none, none⟩
        (fun _ _ => AttemptResult.authError "bad") [0, 1]).1).status = 200) ∧
    ((send_bulk_emails
        ⟨some "a@b.c", some "pw", some ["p@x.y", "q@x.y"],
         some "subj", some "body", none, none, none⟩
        (fun _ _ => AttemptResult.authError "bad") [0, 1]).1).resultsList.all
      (fun o => !o.success) = true :=
  ⟨by decide,
   bulk_success_flag_always_true
     ⟨some "a@b.c", some "pw", some ["p@x.y", "q@x.y"],
      some "subj", some "body", none, none, none⟩
     (fun _ _ => AttemptResult.authError "bad") [0, 1] (by decide),
   by decide⟩

end EmailServer
